import Mathlib

/-!
Shallow embedding of `src/src/DeviceManagerVK.cpp` (class `DeviceManager_VK`,
adapted from Donut's `DeviceManager_VK`).  The embedding models the pieces of
the device manager that carry decision logic:

* instance extension / layer negotiation (`createInstance`),
* physical-adapter selection (`pickPhysicalDevice`),
* queue-family role assignment (`findQueueFamilies`),
* swapchain creation / resize (`createSwapChain`, `resizeSwapChain`,
  `getBackBuffer`, `getBackBufferCount`),
* the frame throttling part of `Present` (`presentSync`).

External driver calls (`vk::enumerate...`, `getSwapchainImagesKHR`,
`acquireNextImageKHR`, queue submission) are modeled as explicit inputs: the
lists of available names, the list of returned images, per-family presentation
support bits.  Machine integers stay far from overflow in this code path, so
they are modeled as `Nat` (and `Int` for the `-1`-sentinel queue family
fields, which are `int` in the source).
-/

namespace DMVK

/-- Configuration options of `m_DeviceParams` that the Vulkan device manager
reads (a subset of the fields of `DeviceCreationParameters`; only fields used
by `DeviceManagerVK.cpp` are modeled). -/
structure DeviceParams where
  enableComputeQueue : Bool := false
  enableCopyQueue : Bool := false
  enableDebugRuntime : Bool := false
  vsyncEnabled : Bool := false
  maxFramesInFlight : Nat := 2
  swapChainBufferCount : Nat := 3
  backBufferWidth : Nat := 1280
  backBufferHeight : Nat := 720
  swapChainFormat : Nat := 0
  requiredVulkanInstanceExtensions : List String := []
  optionalVulkanInstanceExtensions : List String := []
  requiredVulkanLayers : List String := []
  optionalVulkanLayers : List String := []
  requiredVulkanDeviceExtensions : List String := []
  optionalVulkanDeviceExtensions : List String := []
deriving DecidableEq

/-! ## Queue family role assignment (`DeviceManager_VK::findQueueFamilies`) -/

/-- One entry of `physicalDevice.getQueueFamilyProperties()`: the queue count
and capability flags, plus the result of
`getPhysicalDevicePresentationSupport` for this family index (an external
platform query, modeled as a per-family bit). -/
structure QueueFamily where
  queueCount : Nat
  graphics : Bool
  compute : Bool
  transfer : Bool
  present : Bool
deriving DecidableEq

/-- The four `int` queue-family member fields of `DeviceManager_VK`
(`m_GraphicsQueueFamily`, `m_ComputeQueueFamily`, `m_TransferQueueFamily`,
`m_PresentQueueFamily`), each initialized to `-1` = unassigned. -/
structure QueueState where
  graphicsQueueFamily : Int
  computeQueueFamily : Int
  transferQueueFamily : Int
  presentQueueFamily : Int
deriving DecidableEq

/-- Initial values of the queue family fields (all `-1`). -/
def initQueueState : QueueState :=
  { graphicsQueueFamily := -1, computeQueueFamily := -1
    transferQueueFamily := -1, presentQueueFamily := -1 }

/-- Condition under which a family is taken for the graphics role:
`queueCount > 0 && (queueFlags & eGraphics)`. -/
def graphicsPred (f : QueueFamily) : Bool :=
  decide (0 < f.queueCount) && f.graphics

/-- Condition for the compute role:
`queueCount > 0 && (queueFlags & eCompute) && !(queueFlags & eGraphics)`. -/
def computePred (f : QueueFamily) : Bool :=
  decide (0 < f.queueCount) && f.compute && !f.graphics

/-- Condition for the transfer role: `queueCount > 0 && (queueFlags &
eTransfer) && !(queueFlags & eCompute) && !(queueFlags & eGraphics)`. -/
def transferPred (f : QueueFamily) : Bool :=
  decide (0 < f.queueCount) && f.transfer && !f.compute && !f.graphics

/-- Condition for the present role: `queueCount > 0 &&
getPhysicalDevicePresentationSupport(physicalDevice, i)`. -/
def presentPred (f : QueueFamily) : Bool :=
  decide (0 < f.queueCount) && f.present

/-- One of the four `if (m_XQueueFamily == -1) { if (pred) m_XQueueFamily = i; }`
blocks in the scan loop: assign index `i` when the field is still `-1` and the
family matches. -/
def firstMatch (pred : QueueFamily → Bool) (cur : Int) (i : Nat) (f : QueueFamily) : Int :=
  if cur = -1 ∧ pred f = true then Int.ofNat i else cur

/-- One iteration of the scan loop body: the four role blocks run on the same
family; each block reads and writes only its own field. -/
def assignFamily (s : QueueState) (i : Nat) (f : QueueFamily) : QueueState :=
  { graphicsQueueFamily := firstMatch graphicsPred s.graphicsQueueFamily i f
    computeQueueFamily := firstMatch computePred s.computeQueueFamily i f
    transferQueueFamily := firstMatch transferPred s.transferQueueFamily i f
    presentQueueFamily := firstMatch presentPred s.presentQueueFamily i f }

/-- The `for (int i = 0; i < props.size(); i++)` scan over the queue family
list, threading the member-field state. -/
def findLoop : List QueueFamily → Nat → QueueState → QueueState
  | [], _, s => s
  | f :: rest, i, s => findLoop rest (i + 1) (assignFamily s i f)

/-- `DeviceManager_VK::findQueueFamilies`: scan the families, then fail iff
graphics or present is unassigned, or compute (resp. transfer) is unassigned
while `enableComputeQueue` (resp. `enableCopyQueue`) is set.  The mutated
member state is returned in both cases. -/
def findQueueFamilies (p : DeviceParams) (fams : List QueueFamily) (s : QueueState) :
    Bool × QueueState :=
  let t := findLoop fams 0 s
  (!(decide (t.graphicsQueueFamily = -1 ∨ t.presentQueueFamily = -1 ∨
      (t.computeQueueFamily = -1 ∧ p.enableComputeQueue = true) ∨
      (t.transferQueueFamily = -1 ∧ p.enableCopyQueue = true))), t)

/-- Index of the first element of a list satisfying `pred`, if any.  Used to
state the specification of the first-match scan. -/
def firstIdx {α : Type} (pred : α → Bool) : List α → Option Nat
  | [] => none
  | x :: xs => if pred x then some 0 else (firstIdx pred xs).map (· + 1)

/-- Spec-side reading of a queue family field: the found index, or `-1`. -/
def idxToInt : Option Nat → Int
  | some j => Int.ofNat j
  | none => -1

/-! ## Swapchain state (`createSwapChain`, `destroySwapChain`,
`ResizeSwapChain`, `GetBackBuffer`, `GetBackBufferCount`) -/

/-- The subset of `nvrhi::ResourceStates` values relevant here. -/
inductive ResourceStates where
  | Unknown
  | Common
  | Present
deriving DecidableEq

/-- The fields of `nvrhi::TextureDesc` that `createSwapChain` sets on each
back-buffer wrapper. -/
structure TextureDesc where
  width : Nat
  height : Nat
  format : Nat
  debugName : String
  initialState : ResourceStates
  keepInitialState : Bool
  isRenderTarget : Bool
deriving DecidableEq

/-- `DeviceManager_VK::SwapChainImage`: a native image plus its wrapped
rendering-hardware-interface texture handle (modeled by the descriptor the
wrapper was created with). -/
structure SwapChainImage where
  image : Nat
  rhiDesc : TextureDesc
deriving DecidableEq

/-- The swapchain-owning part of the device manager state:
`m_SwapChainImages`, `m_SwapChainIndex`, plus handle-validity flags for
`m_SwapChain` and `m_VulkanDevice` (used by the guards in `destroySwapChain`
and `ResizeSwapChain`). -/
structure SwapChainState where
  swapChainImages : List SwapChainImage
  swapChainIndex : Nat
  hasSwapChain : Bool
  hasDevice : Bool
deriving DecidableEq

/-- `DeviceManager_VK::destroySwapChain`: wait idle (no modeled state), drop
the swapchain handle, clear the image wrappers. -/
def destroySwapChain (s : SwapChainState) : SwapChainState :=
  { s with hasSwapChain := false, swapChainImages := [] }

/-- The `nvrhi::TextureDesc` built for every back-buffer image inside
`createSwapChain`. -/
def backBufferDesc (p : DeviceParams) : TextureDesc :=
  { width := p.backBufferWidth
    height := p.backBufferHeight
    format := p.swapChainFormat
    debugName := "Swap chain image"
    initialState := ResourceStates.Present
    keepInitialState := true
    isRenderTarget := true }

/-- `DeviceManager_VK::createSwapChain`.  `createOk` models the result of
`vkCreateSwapchainKHR` and `nativeImages` the list returned by
`getSwapchainImagesKHR` (both external driver calls).  On success every
returned image is wrapped with `backBufferDesc` and the cursor resets to 0. -/
def createSwapChain (p : DeviceParams) (createOk : Bool) (nativeImages : List Nat)
    (s : SwapChainState) : Bool × SwapChainState :=
  let s := destroySwapChain s
  if createOk then
    let imgs := nativeImages.map (fun im => { image := im, rhiDesc := backBufferDesc p : SwapChainImage })
    (true, { s with hasSwapChain := true, swapChainImages := imgs, swapChainIndex := 0 })
  else
    (false, s)

/-- `DeviceManager_VK::ResizeSwapChain`: if a device exists, destroy the
swapchain and run `createSwapChain` again. -/
def resizeSwapChain (p : DeviceParams) (createOk : Bool) (nativeImages : List Nat)
    (s : SwapChainState) : SwapChainState :=
  if s.hasDevice then
    (createSwapChain p createOk nativeImages (destroySwapChain s)).2
  else
    s

/-- `DeviceManager_VK::GetBackBufferCount`: `m_SwapChainImages.size()`. -/
def getBackBufferCount (s : SwapChainState) : Nat :=
  s.swapChainImages.length

/-- `DeviceManager_VK::GetBackBuffer`: return the wrapper at `index` when
`index < m_SwapChainImages.size()`, else `nullptr` (modeled as `none`). -/
def getBackBuffer (s : SwapChainState) (index : Nat) : Option SwapChainImage :=
  if h : index < s.swapChainImages.length then
    some (s.swapChainImages.get ⟨index, h⟩)
  else
    none

/-! ## Frame throttling in `Present` -/

/-- The frame-pacing part of the device manager state: `m_FramesInFlight`
(FIFO, head = oldest), `m_QueryPool` (reuse stack, last element = top), a
fresh-id counter standing for `createEventQuery` allocations, and the log of
markers passed to `waitEventQuery`, in order. -/
structure FrameSync where
  framesInFlight : List Nat
  queryPool : List Nat
  nextQueryId : Nat
  waited : List Nat
deriving DecidableEq

/-- Frame-pacing state at construction: both containers empty. -/
def initFrameSync : FrameSync :=
  { framesInFlight := [], queryPool := [], nextQueryId := 0, waited := [] }

/-- The `while (m_FramesInFlight.size() > maxFramesInFlight)` drain loop of
`Present`: pop the oldest marker, wait on it, move it to the pool.  Arguments
and results are (queue, pool, waited log). -/
def drainLoop (maxF : Nat) : List Nat → List Nat → List Nat → List Nat × List Nat × List Nat
  | [], pool, waited => ([], pool, waited)
  | q :: rest, pool, waited =>
    if rest.length + 1 > maxF then
      drainLoop maxF rest (pool ++ [q]) (waited ++ [q])
    else
      (q :: rest, pool, waited)

/-- The frame throttling block at the end of `Present` (drain beyond the
bound, then take a marker from the pool or create a fresh one, reset it, arm
it on the graphics queue, and push it onto the in-flight queue). -/
def throttleStep (maxF : Nat) (s : FrameSync) : FrameSync :=
  let r := drainLoop maxF s.framesInFlight s.queryPool s.waited
  match r.2.1.getLast? with
  | some q =>
      { framesInFlight := r.1 ++ [q], queryPool := r.2.1.dropLast
        nextQueryId := s.nextQueryId, waited := r.2.2 }
  | none =>
      { framesInFlight := r.1 ++ [s.nextQueryId], queryPool := r.2.1
        nextQueryId := s.nextQueryId + 1, waited := r.2.2 }

/-- `DeviceManager_VK::Present`, restricted to its effect on the frame-pacing
state: when `enableDebugRuntime` is set the function only idle-waits the
present queue (no marker traffic); otherwise it (optionally idle-waits on
vsync on non-Windows platforms, which does not touch this state, and) runs the
throttling block.  The semaphore signal, barrier command list and
`presentKHR` call touch no modeled state. -/
def presentSync (p : DeviceParams) (s : FrameSync) : FrameSync :=
  if p.enableDebugRuntime then
    s
  else
    throttleStep p.maxFramesInFlight s

/-- `DeviceManager_VK::BeginFrame`, restricted to its effect on the
frame-pacing state: acquiring the next image and enqueueing the semaphore
wait touch `m_SwapChainIndex` and the GPU only, never `m_FramesInFlight`,
`m_QueryPool` or the marker allocator. -/
def beginFrameSync (s : FrameSync) : FrameSync := s

/-- A renderer-driven call sequence against the frame synchronizer. -/
inductive FrameCall where
  | begin
  | present
deriving DecidableEq

/-- Run a sequence of `BeginFrame`/`Present` calls from the initial state
(earliest call first). -/
def runCalls (p : DeviceParams) (cs : List FrameCall) : FrameSync :=
  cs.foldl
    (fun s c =>
      match c with
      | FrameCall.begin => beginFrameSync s
      | FrameCall.present => presentSync p s)
    initFrameSync

/-- State after `n` consecutive `Present` calls from the initial state. -/
def presentN (p : DeviceParams) (n : Nat) : FrameSync :=
  runCalls p (List.replicate n FrameCall.present)

/-! ## Instance extension and layer negotiation
(`DeviceManager_VK::createInstance`) -/

/-- The built-in required instance extensions of `enabledExtensions.instance`
(the value of `VK_KHR_GET_PHYSICAL_DEVICE_PROPERTIES_2_EXTENSION_NAME`). -/
def requiredInstanceDefaults : List String :=
  ["VK_KHR_get_physical_device_properties2"]

/-- The built-in optional instance extensions of
`optionalExtensions.instance`. -/
def optionalInstanceDefaults : List String :=
  ["VK_EXT_sampler_filter_minmax", "VK_EXT_debug_utils"]

/-- The built-in required device extensions of `enabledExtensions.device`. -/
def requiredDeviceDefaults : List String :=
  ["VK_KHR_swapchain", "VK_KHR_maintenance1"]

/-- The built-in optional device extensions of `optionalExtensions.device`. -/
def optionalDeviceDefaults : List String :=
  ["VK_EXT_debug_marker", "VK_EXT_descriptor_indexing",
   "VK_KHR_buffer_device_address", "VK_NV_mesh_shader",
   "VK_KHR_fragment_shading_rate"]

/-- One scope of the negotiation in `createInstance`: iterate the driver's
enumeration, inserting every available optional name into the enabled set
(which starts as the required set); separately, the required set minus all
enumerated names is what remains in the local `requiredExtensions` /
`requiredLayers` set after the erase loop.  Sets are modeled as lists; the
insert dedupes like `std::unordered_set::insert`.  Returns
(enabled set, missing required names). -/
def negotiateScope (required optional available : List String) :
    List String × List String :=
  let enabled := available.foldl
    (fun acc name => if name ∈ optional ∧ name ∉ acc then acc ++ [name] else acc)
    required
  let missing := required.filter (fun r => decide (r ∉ available))
  (enabled, missing)

/-- Result of `createInstance` as observed by callers: success flag, the two
enabled scope sets, and the missing required names listed by the error
message (empty on success; the error text enumerates exactly these names). -/
structure InstanceOutcome where
  ok : Bool
  enabledInstance : List String
  enabledLayers : List String
  errors : List String
deriving DecidableEq

/-- `DeviceManager_VK::createInstance`, with the user-requested names already
folded into the scope sets (the four insert loops at the top of the function)
and the driver enumerations passed in as `availExt` / `availLayers`.
Instance extensions are negotiated first; if any required extension is
missing the function reports all of them and returns before touching layers.
Then layers are negotiated the same way.  The actual `vkCreateInstance` call
is an external driver call and is not modeled. -/
def createInstance (reqInst optInst reqLay optLay availExt availLayers : List String) :
    InstanceOutcome :=
  let rExt := negotiateScope reqInst optInst availExt
  if rExt.2.isEmpty then
    let rLay := negotiateScope reqLay optLay availLayers
    if rLay.2.isEmpty then
      { ok := true, enabledInstance := rExt.1, enabledLayers := rLay.1, errors := [] }
    else
      { ok := false, enabledInstance := rExt.1, enabledLayers := rLay.1, errors := rLay.2 }
  else
    { ok := false, enabledInstance := rExt.1, enabledLayers := reqLay, errors := rExt.2 }

/-! ## Physical adapter selection (`DeviceManager_VK::pickPhysicalDevice`) -/

/-- `vk::SurfaceCapabilitiesKHR` fields read by the selector. -/
structure SurfaceCaps where
  minImageCount : Nat
  maxImageCount : Nat
  minImageExtentW : Nat
  minImageExtentH : Nat
  maxImageExtentW : Nat
  maxImageExtentH : Nat
deriving DecidableEq

/-- One enumerated physical device together with the driver-reported facts
`pickPhysicalDevice` queries about it: properties (name, device type),
supported device extensions, the two gating features, surface capabilities,
supported surface formats, queue family properties (including per-family
platform presentation support), and per-family `getSurfaceSupportKHR` bits. -/
structure Adapter where
  name : String
  isDiscrete : Bool
  deviceExtensions : List String
  samplerAnisotropy : Bool
  textureCompressionBC : Bool
  surfaceCaps : SurfaceCaps
  surfaceFormats : List Nat
  queueFamilies : List QueueFamily
  surfaceSupport : List Bool
deriving DecidableEq

/-- `dev.getSurfaceSupportKHR(family, surface)` for a family index held in an
`int` member: out-of-range and `-1` indices report no support. -/
def surfaceSupportAt (a : Adapter) (i : Int) : Bool :=
  if 0 ≤ i then a.surfaceSupport.getD i.toNat false else false

/-- One entry of the error stream `pickPhysicalDevice` accumulates per
rejected predicate (plus the per-adapter name header). -/
inductive Diagnostic where
  | adapterName (n : String)
  | missingExtension (n : String)
  | noSamplerAnisotropy
  | noTextureCompressionBC
  | badImageCount
  | badExtent
  | badSurfaceFormat
  | badQueueFamilies
  | cannotPresent
deriving DecidableEq

/-- The body of the adapter loop in `pickPhysicalDevice` for one device:
evaluates every rejection predicate (all of them are evaluated, none
short-circuits the others), calls `findQueueFamilies` against the threaded
member state, then checks `getSurfaceSupportKHR` at the (possibly just
updated) `m_GraphicsQueueFamily`.  Returns (`deviceIsGood`, the updated queue
state, the diagnostics appended to the error stream for this adapter). -/
def evalAdapter (p : DeviceParams) (reqDev : List String) (a : Adapter) (qs : QueueState) :
    Bool × QueueState × List Diagnostic :=
  let missing := reqDev.filter (fun e => decide (e ∉ a.deviceExtensions))
  let extOk := missing.isEmpty
  let countBad : Bool :=
    decide (p.swapChainBufferCount < a.surfaceCaps.minImageCount ∨
      (a.surfaceCaps.maxImageCount < p.swapChainBufferCount ∧ 0 < a.surfaceCaps.maxImageCount))
  let extentBad : Bool :=
    decide (p.backBufferWidth < a.surfaceCaps.minImageExtentW ∨
      p.backBufferHeight < a.surfaceCaps.minImageExtentH ∨
      a.surfaceCaps.maxImageExtentW < p.backBufferWidth ∨
      a.surfaceCaps.maxImageExtentH < p.backBufferHeight)
  let fmtOk : Bool := decide (p.swapChainFormat ∈ a.surfaceFormats)
  let qr := findQueueFamilies p a.queueFamilies qs
  let canPresent := surfaceSupportAt a qr.2.graphicsQueueFamily
  let errs :=
    [Diagnostic.adapterName a.name]
    ++ missing.map Diagnostic.missingExtension
    ++ (if a.samplerAnisotropy then [] else [Diagnostic.noSamplerAnisotropy])
    ++ (if a.textureCompressionBC then [] else [Diagnostic.noTextureCompressionBC])
    ++ (if countBad then [Diagnostic.badImageCount] else [])
    ++ (if extentBad then [Diagnostic.badExtent] else [])
    ++ (if fmtOk then [] else [Diagnostic.badSurfaceFormat])
    ++ (if qr.1 then [] else [Diagnostic.badQueueFamilies])
    ++ (if canPresent then [] else [Diagnostic.cannotPresent])
  let good := extOk && a.samplerAnisotropy && a.textureCompressionBC &&
    !countBad && !extentBad && fmtOk && qr.1 && canPresent
  (good, qr.2, errs)

/-- The adapter loop: partition the passing adapters (with their enumeration
indices) into the `discreteGPUs` and `otherGPUs` lists, threading the queue
family member state through every `findQueueFamilies` call and accumulating
the error stream across all adapters. -/
def pickLoop (p : DeviceParams) (reqDev : List String) :
    List Adapter → Nat → QueueState →
    List (Nat × Adapter) × List (Nat × Adapter) × QueueState × List Diagnostic
  | [], _, qs => ([], [], qs, [])
  | a :: rest, i, qs =>
    let e := evalAdapter p reqDev a qs
    let r := pickLoop p reqDev rest (i + 1) e.2.1
    if e.1 then
      if a.isDiscrete then
        ((i, a) :: r.1, r.2.1, r.2.2.1, e.2.2 ++ r.2.2.2)
      else
        (r.1, (i, a) :: r.2.1, r.2.2.1, e.2.2 ++ r.2.2.2)
    else
      (r.1, r.2.1, r.2.2.1, e.2.2 ++ r.2.2.2)

/-- `DeviceManager_VK::pickPhysicalDevice`: run the loop, then pick the first
discrete GPU if any, else the first other GPU, else fail, emitting the
accumulated error stream only in the failure case. -/
def pickPhysicalDevice (p : DeviceParams) (reqDev : List String)
    (adapters : List Adapter) (qs : QueueState) :
    Option (Nat × Adapter) × QueueState × List Diagnostic :=
  let r := pickLoop p reqDev adapters 0 qs
  match r.1 with
  | d :: _ => (some d, r.2.2.1, [])
  | [] =>
    match r.2.1 with
    | o :: _ => (some o, r.2.2.1, [])
    | [] => (none, r.2.2.1, r.2.2.2)

/-- Verdict trace of the adapter loop: for each enumerated adapter, its
device-type class (discrete?) and whether it passed all rejection predicates,
with the queue family member state threaded exactly as `pickLoop` threads
it.  This is the spec-side notion of "passes all rejection predicates". -/
def adapterVerdicts (p : DeviceParams) (reqDev : List String) :
    List Adapter → QueueState → List (Bool × Bool)
  | [], _ => []
  | a :: rest, qs =>
    let e := evalAdapter p reqDev a qs
    (a.isDiscrete, e.1) :: adapterVerdicts p reqDev rest e.2.1

/-- Spec-side selection rule from the spec's words: the first discrete
adapter that passed wins, else the first non-discrete adapter that passed,
else selection fails. -/
def preferredChoice (vs : List (Bool × Bool)) : Option Nat :=
  match firstIdx (fun v => v.1 && v.2) vs with
  | some i => some i
  | none => firstIdx (fun v => !v.1 && v.2) vs

/-! ## Bring-up sequencing (`DeviceManager_VK::CreateDeviceAndSwapChain`) -/

/-- The instance-negotiation phase of `CreateDeviceAndSwapChain`: insert the
debug-runtime extension/layer when `enableDebugRuntime` is set, fold in the
user-requested instance extension and layer names, and run
`createInstance`. -/
def instancePhase (p : DeviceParams) (availExt availLayers : List String) :
    InstanceOutcome :=
  let reqInst := requiredInstanceDefaults
    ++ (if p.enableDebugRuntime then ["VK_EXT_debug_report"] else [])
    ++ p.requiredVulkanInstanceExtensions
  let optInst := optionalInstanceDefaults ++ p.optionalVulkanInstanceExtensions
  let reqLay := (if p.enableDebugRuntime then ["VK_LAYER_KHRONOS_validation"] else [])
    ++ p.requiredVulkanLayers
  let optLay := p.optionalVulkanLayers
  createInstance reqInst optInst reqLay optLay availExt availLayers

/-- Outcome of `CreateDeviceAndSwapChain` up to device creation: overall
success so far, whether control reached `createDevice`, the selected adapter
index, and the error streams emitted by the failing phase. -/
structure BringUpOutcome where
  ok : Bool
  reachedCreateDevice : Bool
  chosenAdapter : Option Nat
  instanceErrors : List String
  adapterErrors : List Diagnostic
deriving DecidableEq

/-- The `CHECK(createInstance()) ... CHECK(pickPhysicalDevice())
CHECK(findQueueFamilies(...)) CHECK(createDevice())` chain of
`CreateDeviceAndSwapChain`: each failing phase returns `false` immediately,
so `createDevice` is reached only after instance negotiation, adapter
selection and the repeated queue-family resolution all succeed.  Surface
creation and the device/swapchain driver calls are external and modeled as
succeeding; the user-requested device extensions are folded into the required
set before selection, as in the source. -/
def createDeviceAndSwapChain (p : DeviceParams) (availExt availLayers : List String)
    (adapters : List Adapter) : BringUpOutcome :=
  let io := instancePhase p availExt availLayers
  if io.ok then
    let reqDev := requiredDeviceDefaults ++ p.requiredVulkanDeviceExtensions
    let pick := pickPhysicalDevice p reqDev adapters initQueueState
    match pick.1 with
    | none =>
      { ok := false, reachedCreateDevice := false, chosenAdapter := none
        instanceErrors := [], adapterErrors := pick.2.2 }
    | some d =>
      let fq := findQueueFamilies p d.2.queueFamilies pick.2.1
      if fq.1 then
        { ok := true, reachedCreateDevice := true, chosenAdapter := some d.1
          instanceErrors := [], adapterErrors := [] }
      else
        { ok := false, reachedCreateDevice := false, chosenAdapter := some d.1
          instanceErrors := [], adapterErrors := [] }
  else
    { ok := false, reachedCreateDevice := false, chosenAdapter := none
      instanceErrors := io.errors, adapterErrors := [] }

/-! ## Concrete instances used by scenario theorems and witnesses -/

/-- A combined graphics/compute/transfer family with presentation support. -/
def famCombined : QueueFamily :=
  { queueCount := 1, graphics := true, compute := true, transfer := true, present := true }

/-- A dedicated compute/transfer family without graphics or presentation. -/
def famDedicatedCompute : QueueFamily :=
  { queueCount := 1, graphics := false, compute := true, transfer := true, present := false }

/-- A small queue-family list: one combined family, one dedicated family. -/
def famsDemo : List QueueFamily := [famCombined, famDedicatedCompute]

/-- Unconstraining surface capabilities (max image count 0 = unbounded). -/
def capsOk : SurfaceCaps :=
  { minImageCount := 1, maxImageCount := 0
    minImageExtentW := 1, minImageExtentH := 1
    maxImageExtentW := 4096, maxImageExtentH := 4096 }

/-- A discrete adapter that fails the `samplerAnisotropy` required-feature
predicate but satisfies everything else. -/
def adapterDiscreteBad : Adapter :=
  { name := "discrete", isDiscrete := true
    deviceExtensions := ["VK_KHR_swapchain", "VK_KHR_maintenance1"]
    samplerAnisotropy := false, textureCompressionBC := true
    surfaceCaps := capsOk, surfaceFormats := [0]
    queueFamilies := [famCombined], surfaceSupport := [true] }

/-- An integrated (non-discrete) adapter that passes every predicate. -/
def adapterIntegratedGood : Adapter :=
  { adapterDiscreteBad with
    name := "integrated", isDiscrete := false, samplerAnisotropy := true }

/-- A configuration requiring a device extension `"X"` that
`adapterIntegratedGood` does not support. -/
def paramsMissingX : DeviceParams :=
  { requiredVulkanDeviceExtensions := ["X"] }

/-- A queue-family member state in which every role is already assigned. -/
def qStateDemo : QueueState :=
  { graphicsQueueFamily := 0, computeQueueFamily := 1
    transferQueueFamily := 2, presentQueueFamily := 0 }

/-- A device-manager swapchain state before a `createSwapChain` call. -/
def demoSwapState : SwapChainState :=
  { swapChainImages := [], swapChainIndex := 7, hasSwapChain := false, hasDevice := true }

/-- The swapchain state after wrapping two native images. -/
def demoBackBuffers : SwapChainState :=
  (createSwapChain {} true [10, 11] demoSwapState).2

/-! # Theorems -/

/-! ## Frame throttling (claims C1, C2, C6) -/

lemma beginFrameSync_id (s : FrameSync) : beginFrameSync s = s := rfl

lemma drainLoop_fst_length_le (maxF : Nat) :
    ∀ (q pool waited : List Nat), ((drainLoop maxF q pool waited).1).length ≤ maxF := by
  intro q
  induction q with
  | nil => intro pool waited; simp [drainLoop]
  | cons a rest ih =>
    intro pool waited
    rw [drainLoop]
    split
    · exact ih _ _
    · next h => simp only [List.length_cons]; omega

lemma throttleStep_length_eq (maxF : Nat) (s : FrameSync) :
    (throttleStep maxF s).framesInFlight.length =
      ((drainLoop maxF s.framesInFlight s.queryPool s.waited).1).length + 1 := by
  unfold throttleStep
  cases h : ((drainLoop maxF s.framesInFlight s.queryPool s.waited).2.1).getLast? <;>
    simp [h, List.length_append]

lemma throttleStep_length_le (maxF : Nat) (s : FrameSync) :
    (throttleStep maxF s).framesInFlight.length ≤ maxF + 1 := by
  have hb := drainLoop_fst_length_le maxF s.framesInFlight s.queryPool s.waited
  rw [throttleStep_length_eq]
  omega

lemma runCalls_aux (p : DeviceParams) :
    ∀ (cs : List FrameCall) (s : FrameSync),
      s.framesInFlight.length ≤ p.maxFramesInFlight + 1 →
      (cs.foldl
        (fun s c =>
          match c with
          | FrameCall.begin => beginFrameSync s
          | FrameCall.present => presentSync p s)
        s).framesInFlight.length ≤ p.maxFramesInFlight + 1 := by
  intro cs
  induction cs with
  | nil => intro s h; simpa using h
  | cons c rest ih =>
    intro s h
    rw [List.foldl_cons]
    apply ih
    cases c with
    | begin => exact h
    | present =>
      simp only [presentSync]
      split
      · exact h
      · exact throttleStep_length_le p.maxFramesInFlight s

/-- C1 counterexample: with `maxFramesInFlight = 2` and the debug runtime
disabled, the in-flight queue holds 3 markers at the end of the third
`Present` call — more than `maxFramesInFlight`.  (The drain loop only runs
while the size already exceeds the bound, and a fresh marker is pushed
afterwards.) -/
theorem present_in_flight_exceeds_max_counterexample :
    (presentN { maxFramesInFlight := 2 } 3).framesInFlight.length = 3 ∧
    ¬((presentN { maxFramesInFlight := 2 } 3).framesInFlight.length ≤
        ({ maxFramesInFlight := 2 } : DeviceParams).maxFramesInFlight) := by
  decide

/-- C1 (amended): at the end of every `Present` call — for every
configuration and every sequence of `BeginFrame`/`Present` calls from the
initial state — the in-flight frame queue holds at most
`maxFramesInFlight + 1` markers: the drain loop bounds the queue by
`maxFramesInFlight` and one marker for the current frame is then pushed
(and when the debug runtime is enabled the queue stays empty). -/
theorem present_in_flight_bound (p : DeviceParams) (cs : List FrameCall) :
    (runCalls p cs).framesInFlight.length ≤ p.maxFramesInFlight + 1 := by
  unfold runCalls
  exact runCalls_aux p cs initFrameSync (by simp [initFrameSync])

/-- C2 counterexample: with the debug runtime enabled, a `Present` call
leaves the frame-pacing state completely untouched — no marker is drained,
obtained, armed or pushed — while the identical call with the debug runtime
disabled pushes a marker.  The throttling is therefore not performed on
every `Present` call regardless of the debug-runtime setting. -/
theorem present_throttle_debug_counterexample :
    presentSync { enableDebugRuntime := true, maxFramesInFlight := 2 } initFrameSync
      = initFrameSync ∧
    (presentSync { enableDebugRuntime := false, maxFramesInFlight := 2 }
      initFrameSync).framesInFlight.length = 1 := by
  decide

/-- C2 (amended): the in-flight throttling in `Present` runs exactly when the
debug runtime is disabled — in that case it performs the drain/obtain/arm/push
block, growing the drained queue by one — and when the debug runtime is
enabled the frame-pacing state is left unchanged; the throttling is
independent of the vsync setting in either case. -/
theorem present_throttle_iff_no_debug (p : DeviceParams) (s : FrameSync) (b : Bool) :
    (p.enableDebugRuntime = false →
      presentSync p s = throttleStep p.maxFramesInFlight s) ∧
    (p.enableDebugRuntime = false →
      (presentSync p s).framesInFlight.length =
        ((drainLoop p.maxFramesInFlight s.framesInFlight s.queryPool s.waited).1).length + 1) ∧
    (p.enableDebugRuntime = true → presentSync p s = s) ∧
    presentSync { p with vsyncEnabled := b } s = presentSync p s := by
  refine ⟨?_, ?_, ?_, ?_⟩
  · intro h; simp [presentSync, h]
  · intro h; simp [presentSync, h, throttleStep_length_eq]
  · intro h; simp [presentSync, h]
  · rfl

/-- Witness for the amended C2 theorem at concrete inputs. -/
theorem present_throttle_iff_no_debug_witness :
    presentSync { enableDebugRuntime := false } initFrameSync
      = throttleStep 2 initFrameSync ∧
    presentSync { enableDebugRuntime := true } initFrameSync = initFrameSync :=
  ⟨(present_throttle_iff_no_debug { enableDebugRuntime := false } initFrameSync true).1 rfl,
   (present_throttle_iff_no_debug { enableDebugRuntime := true } initFrameSync true).2.2.1 rfl⟩

/-- C6 counterexample: with `maxFramesInFlight = 2`, at the end of the third
`Present` call no marker has been waited on (the wait log is empty), the pool
is empty, the marker armed in the first Present (id 0) is still at the front
of the in-flight queue, and the third Present allocated a fresh marker
(three allocations so far) instead of reusing one. -/
theorem marker_reuse_third_present_counterexample :
    (presentN { maxFramesInFlight := 2 } 3).waited = [] ∧
    (presentN { maxFramesInFlight := 2 } 3).queryPool = [] ∧
    (presentN { maxFramesInFlight := 2 } 3).nextQueryId = 3 ∧
    (presentN { maxFramesInFlight := 2 } 3).framesInFlight = [0, 1, 2] := by
  decide

/-- C6 (amended): with `maxFramesInFlight = 2` and eight consecutive
`Present` calls, it is by the end of the fourth (not third) Present that the
marker armed in the first Present (id 0) has been popped from the in-flight
queue, waited on, and reused from the pool instead of a new marker being
allocated: after four Presents the wait log is `[0]`, marker 0 sits at the
back of the queue again, and the allocation counter still reads 3 — and it
still reads 3 after all eight Presents. -/
theorem marker_reuse_fourth_present :
    (presentN { maxFramesInFlight := 2 } 4).waited = [0] ∧
    (presentN { maxFramesInFlight := 2 } 4).framesInFlight = [1, 2, 0] ∧
    (presentN { maxFramesInFlight := 2 } 4).queryPool = [] ∧
    (presentN { maxFramesInFlight := 2 } 4).nextQueryId = 3 ∧
    (presentN { maxFramesInFlight := 2 } 8).nextQueryId = 3 := by
  decide

/-! ## Swapchain postconditions (claims C7, C9) -/

/-- C7: after every successful `createSwapChain` — for every configuration,
every image list returned by the driver and every prior state, including the
`createSwapChain` run by `ResizeSwapChain` — the number of back-buffer
wrappers equals `GetBackBufferCount()` (and equals the number of returned
native images), every wrapper's texture descriptor carries
`initialState = Present` with the `keepInitialState` flag set, and the
current-image cursor `m_SwapChainIndex` is 0. -/
theorem createSwapChain_postconditions (p : DeviceParams) (imgs : List Nat)
    (s : SwapChainState) :
    (createSwapChain p true imgs s).1 = true ∧
    getBackBufferCount (createSwapChain p true imgs s).2 =
      ((createSwapChain p true imgs s).2.swapChainImages).length ∧
    ((createSwapChain p true imgs s).2.swapChainImages).length = imgs.length ∧
    (∀ sci ∈ (createSwapChain p true imgs s).2.swapChainImages,
      sci.rhiDesc.initialState = ResourceStates.Present ∧
      sci.rhiDesc.keepInitialState = true) ∧
    (createSwapChain p true imgs s).2.swapChainIndex = 0 ∧
    (s.hasDevice = true →
      resizeSwapChain p true imgs s = (createSwapChain p true imgs s).2) := by
  refine ⟨rfl, rfl, ?_, ?_, rfl, ?_⟩
  · simp [createSwapChain, destroySwapChain]
  · intro sci hsci
    have hm : sci ∈ imgs.map
        (fun im => { image := im, rhiDesc := backBufferDesc p : SwapChainImage }) := by
      simpa [createSwapChain, destroySwapChain] using hsci
    rw [List.mem_map] at hm
    obtain ⟨im, _, hw⟩ := hm
    subst hw
    exact ⟨rfl, rfl⟩
  · intro h
    simp [resizeSwapChain, h, createSwapChain, destroySwapChain]

/-- Witness for C7 at a concrete configuration, image list and prior state. -/
theorem createSwapChain_postconditions_witness :
    (({ image := 10, rhiDesc := backBufferDesc {} } : SwapChainImage).rhiDesc.initialState
        = ResourceStates.Present ∧
      ({ image := 10, rhiDesc := backBufferDesc {} } : SwapChainImage).rhiDesc.keepInitialState
        = true) ∧
    resizeSwapChain {} true [10, 11] demoSwapState = (createSwapChain {} true [10, 11] demoSwapState).2 :=
  ⟨(createSwapChain_postconditions {} [10, 11] demoSwapState).2.2.2.1
      { image := 10, rhiDesc := backBufferDesc {} } (by decide),
   (createSwapChain_postconditions {} [10, 11] demoSwapState).2.2.2.2.2 rfl⟩

/-- C9: `GetBackBuffer(index)` returns the null handle whenever `index` is at
least the number of swapchain image wrappers, and the wrapper at position
`index` otherwise; the guarded indexing never reads outside the wrapper
list. -/
theorem getBackBuffer_bounds (s : SwapChainState) (i : Nat) :
    ((s.swapChainImages).length ≤ i → getBackBuffer s i = none) ∧
    (∀ h : i < (s.swapChainImages).length,
      getBackBuffer s i = some (s.swapChainImages.get ⟨i, h⟩)) := by
  constructor
  · intro h
    unfold getBackBuffer
    rw [dif_neg (by omega)]
  · intro h
    unfold getBackBuffer
    rw [dif_pos h]

/-- Witness for C9: an in-range and an out-of-range index against a state
holding two wrappers. -/
theorem getBackBuffer_bounds_witness :
    getBackBuffer demoBackBuffers 5 = none ∧
    getBackBuffer demoBackBuffers 0 =
      some (demoBackBuffers.swapChainImages.get ⟨0, by decide⟩) :=
  ⟨(getBackBuffer_bounds demoBackBuffers 5).1 (by decide),
   (getBackBuffer_bounds demoBackBuffers 0).2 (by decide)⟩

/-! ## Queue family resolution (claims C5, C10) -/

lemma findLoop_first (pred : QueueFamily → Bool) (get : QueueState → Int)
    (hget : ∀ s i f, get (assignFamily s i f) = firstMatch pred (get s) i f) :
    ∀ (fams : List QueueFamily) (i : Nat) (s : QueueState),
      get (findLoop fams i s) =
        if get s = -1 then idxToInt ((firstIdx pred fams).map (fun j => i + j))
        else get s := by
  intro fams
  induction fams with
  | nil =>
    intro i s
    simp only [findLoop, firstIdx, Option.map_none', idxToInt]
    split
    · next h => exact h
    · rfl
  | cons f rest ih =>
    intro i s
    rw [findLoop, ih (i + 1) (assignFamily s i f), hget]
    by_cases h1 : get s = -1
    · by_cases h2 : pred f = true
      · have h0 : (0 : Int) ≤ Int.ofNat i := Int.ofNat_nonneg i
        have hno : ¬(Int.ofNat i = -1) := by omega
        simp [firstMatch, firstIdx, h1, h2, hno, idxToInt]
      · cases hfi : firstIdx pred rest with
        | none => simp [firstMatch, firstIdx, h1, h2, hfi, idxToInt]
        | some j =>
          have hj : i + 1 + j = i + (j + 1) := by omega
          simp [firstMatch, firstIdx, h1, h2, hfi, idxToInt, hj]
    · simp [firstMatch, h1]

lemma findLoop_first_graphics (fams : List QueueFamily) (i : Nat) (s : QueueState) :
    (findLoop fams i s).graphicsQueueFamily =
      if s.graphicsQueueFamily = -1 then
        idxToInt ((firstIdx graphicsPred fams).map (fun j => i + j))
      else s.graphicsQueueFamily :=
  findLoop_first graphicsPred (fun t => t.graphicsQueueFamily) (fun _ _ _ => rfl) fams i s

lemma findLoop_first_compute (fams : List QueueFamily) (i : Nat) (s : QueueState) :
    (findLoop fams i s).computeQueueFamily =
      if s.computeQueueFamily = -1 then
        idxToInt ((firstIdx computePred fams).map (fun j => i + j))
      else s.computeQueueFamily :=
  findLoop_first computePred (fun t => t.computeQueueFamily) (fun _ _ _ => rfl) fams i s

lemma findLoop_first_transfer (fams : List QueueFamily) (i : Nat) (s : QueueState) :
    (findLoop fams i s).transferQueueFamily =
      if s.transferQueueFamily = -1 then
        idxToInt ((firstIdx transferPred fams).map (fun j => i + j))
      else s.transferQueueFamily :=
  findLoop_first transferPred (fun t => t.transferQueueFamily) (fun _ _ _ => rfl) fams i s

lemma findLoop_first_present (fams : List QueueFamily) (i : Nat) (s : QueueState) :
    (findLoop fams i s).presentQueueFamily =
      if s.presentQueueFamily = -1 then
        idxToInt ((firstIdx presentPred fams).map (fun j => i + j))
      else s.presentQueueFamily :=
  findLoop_first presentPred (fun t => t.presentQueueFamily) (fun _ _ _ => rfl) fams i s

lemma findQueueFamilies_snd (p : DeviceParams) (fams : List QueueFamily) (s : QueueState) :
    (findQueueFamilies p fams s).2 = findLoop fams 0 s := rfl

lemma idxToInt_map_zero_add (o : Option Nat) :
    idxToInt (o.map (fun j => 0 + j)) = idxToInt o := by
  cases o <;> simp [idxToInt]

lemma idxToInt_eq_neg_one (o : Option Nat) : idxToInt o = -1 ↔ o.isSome = false := by
  cases o with
  | none => simp [idxToInt]
  | some j =>
    have h0 : (0 : Int) ≤ Int.ofNat j := Int.ofNat_nonneg j
    simp only [idxToInt, Option.isSome_some]
    constructor
    · intro h
      exact absurd h (by omega)
    · intro h
      simp at h


lemma findLoop_preserve (pred : QueueFamily → Bool) (get : QueueState → Int)
    (hget : ∀ s i f, get (assignFamily s i f) = firstMatch pred (get s) i f)
    (fams : List QueueFamily) (i : Nat) (s : QueueState) (h : ¬(get s = -1)) :
    get (findLoop fams i s) = get s := by
  rw [findLoop_first pred get hget, if_neg h]

lemma findQueueFamilies_preserve_graphics (p : DeviceParams) (fams : List QueueFamily)
    (s : QueueState) (h : ¬(s.graphicsQueueFamily = -1)) :
    (findQueueFamilies p fams s).2.graphicsQueueFamily = s.graphicsQueueFamily := by
  rw [findQueueFamilies_snd]
  exact findLoop_preserve graphicsPred (fun t => t.graphicsQueueFamily)
    (fun _ _ _ => rfl) fams 0 s h

lemma findQueueFamilies_preserve_compute (p : DeviceParams) (fams : List QueueFamily)
    (s : QueueState) (h : ¬(s.computeQueueFamily = -1)) :
    (findQueueFamilies p fams s).2.computeQueueFamily = s.computeQueueFamily := by
  rw [findQueueFamilies_snd]
  exact findLoop_preserve computePred (fun t => t.computeQueueFamily)
    (fun _ _ _ => rfl) fams 0 s h

lemma findQueueFamilies_preserve_transfer (p : DeviceParams) (fams : List QueueFamily)
    (s : QueueState) (h : ¬(s.transferQueueFamily = -1)) :
    (findQueueFamilies p fams s).2.transferQueueFamily = s.transferQueueFamily := by
  rw [findQueueFamilies_snd]
  exact findLoop_preserve transferPred (fun t => t.transferQueueFamily)
    (fun _ _ _ => rfl) fams 0 s h

lemma findQueueFamilies_preserve_present (p : DeviceParams) (fams : List QueueFamily)
    (s : QueueState) (h : ¬(s.presentQueueFamily = -1)) :
    (findQueueFamilies p fams s).2.presentQueueFamily = s.presentQueueFamily := by
  rw [findQueueFamilies_snd]
  exact findLoop_preserve presentPred (fun t => t.presentQueueFamily)
    (fun _ _ _ => rfl) fams 0 s h

/-- C5: from the unassigned initial state, `findQueueFamilies` assigns each
role to the first queue family matching its predicate (graphics: nonempty
family with graphics capability; compute: nonempty, compute and not
graphics; transfer: nonempty, transfer and neither compute nor graphics;
present: nonempty with platform presentation support, independent of the
other flags), leaving `-1` when no family matches, with at most one family
per role and later matches ignored; and it succeeds if and only if graphics
and present are assigned, compute is assigned whenever `enableComputeQueue`
is set, and transfer is assigned whenever `enableCopyQueue` is set. -/
theorem findQueueFamilies_first_match (p : DeviceParams) (fams : List QueueFamily) :
    (findQueueFamilies p fams initQueueState).2.graphicsQueueFamily
      = idxToInt (firstIdx graphicsPred fams) ∧
    (findQueueFamilies p fams initQueueState).2.computeQueueFamily
      = idxToInt (firstIdx computePred fams) ∧
    (findQueueFamilies p fams initQueueState).2.transferQueueFamily
      = idxToInt (firstIdx transferPred fams) ∧
    (findQueueFamilies p fams initQueueState).2.presentQueueFamily
      = idxToInt (firstIdx presentPred fams) ∧
    ((findQueueFamilies p fams initQueueState).1 = true ↔
      ((firstIdx graphicsPred fams).isSome = true ∧
       (firstIdx presentPred fams).isSome = true ∧
       (p.enableComputeQueue = true → (firstIdx computePred fams).isSome = true) ∧
       (p.enableCopyQueue = true → (firstIdx transferPred fams).isSome = true))) := by
  have hg : (findQueueFamilies p fams initQueueState).2.graphicsQueueFamily
      = idxToInt (firstIdx graphicsPred fams) := by
    rw [findQueueFamilies_snd, findLoop_first_graphics]
    simp [initQueueState, idxToInt_map_zero_add]
  have hc : (findQueueFamilies p fams initQueueState).2.computeQueueFamily
      = idxToInt (firstIdx computePred fams) := by
    rw [findQueueFamilies_snd, findLoop_first_compute]
    simp [initQueueState, idxToInt_map_zero_add]
  have ht : (findQueueFamilies p fams initQueueState).2.transferQueueFamily
      = idxToInt (firstIdx transferPred fams) := by
    rw [findQueueFamilies_snd, findLoop_first_transfer]
    simp [initQueueState, idxToInt_map_zero_add]
  have hp : (findQueueFamilies p fams initQueueState).2.presentQueueFamily
      = idxToInt (firstIdx presentPred fams) := by
    rw [findQueueFamilies_snd, findLoop_first_present]
    simp [initQueueState, idxToInt_map_zero_add]
  have hfst : (findQueueFamilies p fams initQueueState).1 = true ↔
      ¬((findQueueFamilies p fams initQueueState).2.graphicsQueueFamily = -1 ∨
        (findQueueFamilies p fams initQueueState).2.presentQueueFamily = -1 ∨
        ((findQueueFamilies p fams initQueueState).2.computeQueueFamily = -1 ∧
          p.enableComputeQueue = true) ∨
        ((findQueueFamilies p fams initQueueState).2.transferQueueFamily = -1 ∧
          p.enableCopyQueue = true)) := by
    simp [findQueueFamilies]
    tauto
  refine ⟨hg, hc, ht, hp, ?_⟩
  rw [hfst, hg, hc, ht, hp]
  simp only [idxToInt_eq_neg_one]
  cases hG : (firstIdx graphicsPred fams).isSome <;>
    cases hC : (firstIdx computePred fams).isSome <;>
      cases hT : (firstIdx transferPred fams).isSome <;>
        cases hP : (firstIdx presentPred fams).isSome <;>
          cases hcq : p.enableComputeQueue <;>
            cases hpq : p.enableCopyQueue <;>
              decide

/-- Witness for C5: with `enableComputeQueue` set and a family list holding a
combined family and a dedicated compute family, resolution succeeds. -/
theorem findQueueFamilies_first_match_witness :
    (findQueueFamilies { enableComputeQueue := true } famsDemo initQueueState).1 = true :=
  (findQueueFamilies_first_match { enableComputeQueue := true } famsDemo).2.2.2.2.mpr
    (by decide)

/-- C10: each of the four queue-family role fields is write-once:
`findQueueFamilies` assigns a role only while its field still holds `-1` and
never resets a field, so a value assigned while evaluating one adapter's
family list persists unchanged through a subsequent `findQueueFamilies`
invocation for a different adapter (different configuration and family list
included). -/
theorem queue_family_write_once (p p2 : DeviceParams) (famsA famsB : List QueueFamily)
    (s : QueueState) :
    (¬(s.graphicsQueueFamily = -1) →
      (findQueueFamilies p famsA s).2.graphicsQueueFamily = s.graphicsQueueFamily ∧
      (findQueueFamilies p2 famsB (findQueueFamilies p famsA s).2).2.graphicsQueueFamily
        = s.graphicsQueueFamily) ∧
    (¬(s.computeQueueFamily = -1) →
      (findQueueFamilies p famsA s).2.computeQueueFamily = s.computeQueueFamily ∧
      (findQueueFamilies p2 famsB (findQueueFamilies p famsA s).2).2.computeQueueFamily
        = s.computeQueueFamily) ∧
    (¬(s.transferQueueFamily = -1) →
      (findQueueFamilies p famsA s).2.transferQueueFamily = s.transferQueueFamily ∧
      (findQueueFamilies p2 famsB (findQueueFamilies p famsA s).2).2.transferQueueFamily
        = s.transferQueueFamily) ∧
    (¬(s.presentQueueFamily = -1) →
      (findQueueFamilies p famsA s).2.presentQueueFamily = s.presentQueueFamily ∧
      (findQueueFamilies p2 famsB (findQueueFamilies p famsA s).2).2.presentQueueFamily
        = s.presentQueueFamily) := by
  refine ⟨?_, ?_, ?_, ?_⟩
  · intro h
    have h1 := findQueueFamilies_preserve_graphics p famsA s h
    refine ⟨h1, ?_⟩
    rw [findQueueFamilies_preserve_graphics p2 famsB _ (by rw [h1]; exact h), h1]
  · intro h
    have h1 := findQueueFamilies_preserve_compute p famsA s h
    refine ⟨h1, ?_⟩
    rw [findQueueFamilies_preserve_compute p2 famsB _ (by rw [h1]; exact h), h1]
  · intro h
    have h1 := findQueueFamilies_preserve_transfer p famsA s h
    refine ⟨h1, ?_⟩
    rw [findQueueFamilies_preserve_transfer p2 famsB _ (by rw [h1]; exact h), h1]
  · intro h
    have h1 := findQueueFamilies_preserve_present p famsA s h
    refine ⟨h1, ?_⟩
    rw [findQueueFamilies_preserve_present p2 famsB _ (by rw [h1]; exact h), h1]

/-- Witness for C10: a fully assigned state survives two further
`findQueueFamilies` invocations unchanged. -/
theorem queue_family_write_once_witness :
    (findQueueFamilies {} famsDemo qStateDemo).2.graphicsQueueFamily
      = qStateDemo.graphicsQueueFamily ∧
    (findQueueFamilies {} famsDemo (findQueueFamilies {} famsDemo qStateDemo).2).2.graphicsQueueFamily
      = qStateDemo.graphicsQueueFamily :=
  (queue_family_write_once {} {} famsDemo famsDemo qStateDemo).1 (by decide)

/-! ## Instance negotiation (claim C3) -/

lemma negotiateScope_enabled_mem (optional : List String) (x : String) :
    ∀ (available acc : List String),
      (x ∈ available.foldl
        (fun acc name => if name ∈ optional ∧ name ∉ acc then acc ++ [name] else acc)
        acc) ↔ (x ∈ acc ∨ (x ∈ optional ∧ x ∈ available)) := by
  intro available
  induction available with
  | nil => intro acc; simp
  | cons a rest ih =>
    intro acc
    rw [List.foldl_cons]
    by_cases h : a ∈ optional ∧ a ∉ acc
    · rw [if_pos h, ih]
      constructor
      · intro hx
        rcases hx with hx | hx
        · rcases List.mem_append.mp hx with hx | hx
          · exact Or.inl hx
          · have hxa : x = a := by simpa using hx
            subst hxa
            exact Or.inr ⟨h.1, List.mem_cons_self x rest⟩
        · exact Or.inr ⟨hx.1, List.mem_cons_of_mem a hx.2⟩
      · intro hx
        rcases hx with hx | ⟨hop, hmem⟩
        · exact Or.inl (List.mem_append.mpr (Or.inl hx))
        · rcases List.mem_cons.mp hmem with rfl | hr
          · exact Or.inl (List.mem_append.mpr (Or.inr (by simp)))
          · exact Or.inr ⟨hop, hr⟩
    · rw [if_neg h, ih]
      constructor
      · intro hx
        rcases hx with hx | hx
        · exact Or.inl hx
        · exact Or.inr ⟨hx.1, List.mem_cons_of_mem a hx.2⟩
      · intro hx
        rcases hx with hx | ⟨hop, hmem⟩
        · exact Or.inl hx
        · rcases List.mem_cons.mp hmem with rfl | hr
          · rcases not_and_or.mp h with hno | hin
            · exact absurd hop hno
            · exact Or.inl (not_not.mp hin)
          · exact Or.inr ⟨hop, hr⟩

lemma negotiateScope_fst_mem (required optional available : List String) (x : String) :
    x ∈ (negotiateScope required optional available).1 ↔
      x ∈ required ∨ (x ∈ optional ∧ x ∈ available) := by
  unfold negotiateScope
  exact negotiateScope_enabled_mem optional x available required

lemma negotiateScope_snd_mem (required optional available : List String) (x : String) :
    x ∈ (negotiateScope required optional available).2 ↔
      x ∈ required ∧ x ∉ available := by
  unfold negotiateScope
  simp [List.mem_filter]

lemma negotiateScope_snd_empty (required optional available : List String) :
    (negotiateScope required optional available).2.isEmpty = true ↔
      ∀ r ∈ required, r ∈ available := by
  rw [List.isEmpty_iff, List.eq_nil_iff_forall_not_mem]
  constructor
  · intro h r hr
    by_contra hna
    exact h r ((negotiateScope_snd_mem required optional available r).mpr ⟨hr, hna⟩)
  · intro h r hmem
    rw [negotiateScope_snd_mem] at hmem
    exact hmem.2 (h r hmem.1)

/-- C3: `createInstance` negotiates the instance-extension scope and the
layer scope independently: on success each scope's enabled set equals the
union of that scope's required names with the intersection of its optional
names and the driver-enumerated available names; the call fails exactly when
some required name of either scope is absent from that scope's enumeration,
and the error it emits then names every missing required name of the failing
scope (instance extensions are checked first), not just the first. -/
theorem createInstance_negotiation (reqI optI reqL optL aE aL : List String) :
    ((createInstance reqI optI reqL optL aE aL).ok = true →
      (∀ x, x ∈ (createInstance reqI optI reqL optL aE aL).enabledInstance ↔
        x ∈ reqI ∨ (x ∈ optI ∧ x ∈ aE)) ∧
      (∀ x, x ∈ (createInstance reqI optI reqL optL aE aL).enabledLayers ↔
        x ∈ reqL ∨ (x ∈ optL ∧ x ∈ aL))) ∧
    ((createInstance reqI optI reqL optL aE aL).ok = false ↔
      ((∃ r ∈ reqI, r ∉ aE) ∨ (∃ r ∈ reqL, r ∉ aL))) ∧
    (∀ r, r ∈ reqI → r ∉ aE →
      r ∈ (createInstance reqI optI reqL optL aE aL).errors) ∧
    ((∀ r ∈ reqI, r ∈ aE) → ∀ r, r ∈ reqL → r ∉ aL →
      r ∈ (createInstance reqI optI reqL optL aE aL).errors) := by
  by_cases hE : (negotiateScope reqI optI aE).2.isEmpty = true
  · by_cases hL : (negotiateScope reqL optL aL).2.isEmpty = true
    · refine ⟨?_, ?_, ?_, ?_⟩
      · intro _
        constructor
        · intro x
          have : (createInstance reqI optI reqL optL aE aL).enabledInstance
              = (negotiateScope reqI optI aE).1 := by
            simp [createInstance, hE, hL]
          rw [this, negotiateScope_fst_mem]
        · intro x
          have : (createInstance reqI optI reqL optL aE aL).enabledLayers
              = (negotiateScope reqL optL aL).1 := by
            simp [createInstance, hE, hL]
          rw [this, negotiateScope_fst_mem]
      · have hok : (createInstance reqI optI reqL optL aE aL).ok = true := by
          simp [createInstance, hE, hL]
        rw [hok]
        simp only [Bool.true_eq_false, false_iff]
        push_neg
        rw [negotiateScope_snd_empty] at hE hL
        exact ⟨fun r hr => hE r hr, fun r hr => hL r hr⟩
      · intro r hr hna
        rw [negotiateScope_snd_empty] at hE
        exact absurd (hE r hr) hna
      · intro _ r hr hna
        rw [negotiateScope_snd_empty] at hL
        exact absurd (hL r hr) hna
    · refine ⟨?_, ?_, ?_, ?_⟩
      · intro hok
        have : (createInstance reqI optI reqL optL aE aL).ok = false := by
          simp [createInstance, hE, hL]
        rw [this] at hok
        cases hok
      · have : (createInstance reqI optI reqL optL aE aL).ok = false := by
          simp [createInstance, hE, hL]
        rw [this]
        simp only [true_iff]
        rw [List.isEmpty_iff, List.eq_nil_iff_forall_not_mem] at hL
        push_neg at hL
        obtain ⟨r, hrmem⟩ := hL
        rw [negotiateScope_snd_mem] at hrmem
        exact Or.inr ⟨r, hrmem.1, hrmem.2⟩
      · intro r hr hna
        rw [negotiateScope_snd_empty] at hE
        exact absurd (hE r hr) hna
      · intro _ r hr hna
        have : (createInstance reqI optI reqL optL aE aL).errors
            = (negotiateScope reqL optL aL).2 := by
          simp [createInstance, hE, hL]
        rw [this, negotiateScope_snd_mem]
        exact ⟨hr, hna⟩
  · refine ⟨?_, ?_, ?_, ?_⟩
    · intro hok
      have : (createInstance reqI optI reqL optL aE aL).ok = false := by
        simp [createInstance, hE]
      rw [this] at hok
      cases hok
    · have : (createInstance reqI optI reqL optL aE aL).ok = false := by
        simp [createInstance, hE]
      rw [this]
      simp only [true_iff]
      rw [List.isEmpty_iff, List.eq_nil_iff_forall_not_mem] at hE
      push_neg at hE
      obtain ⟨r, hrmem⟩ := hE
      rw [negotiateScope_snd_mem] at hrmem
      exact Or.inl ⟨r, hrmem.1, hrmem.2⟩
    · intro r hr hna
      have : (createInstance reqI optI reqL optL aE aL).errors
          = (negotiateScope reqI optI aE).2 := by
        simp [createInstance, hE]
      rw [this, negotiateScope_snd_mem]
      exact ⟨hr, hna⟩
    · intro hall r hr hna
      rw [negotiateScope_snd_empty] at hE
      exact absurd hall hE

/-- Witness for C3: a missing required extension lands in the error list, and
on success an available optional extension is enabled. -/
theorem createInstance_negotiation_witness :
    "b" ∈ (createInstance ["a", "b"] [] [] [] ["a"] []).errors ∧
    ("o" ∈ (createInstance ["a"] ["o"] [] [] ["a", "o"] []).enabledInstance ↔
      ("o" ∈ ["a"] ∨ ("o" ∈ ["o"] ∧ "o" ∈ ["a", "o"]))) :=
  ⟨(createInstance_negotiation ["a", "b"] [] [] [] ["a"] []).2.2.1 "b"
      (by decide) (by decide),
   ((createInstance_negotiation ["a"] ["o"] [] [] ["a", "o"] []).1 (by decide)).1 "o"⟩

/-! ## Adapter selection (claims C4, C8) -/

lemma option_map_shift (o : Option Nat) (i : Nat) :
    (o.map (fun j => j + 1)).map (fun j => i + j) = o.map (fun j => (i + 1) + j) := by
  cases o with
  | none => rfl
  | some j =>
    simp only [Option.map_some']
    congr 1
    omega

lemma pickLoop_heads (p : DeviceParams) (req : List String) :
    ∀ (as : List Adapter) (i : Nat) (qs : QueueState),
      (((pickLoop p req as i qs).1.head?).map Prod.fst =
        ((firstIdx (fun v => v.1 && v.2) (adapterVerdicts p req as qs)).map (fun j => i + j))) ∧
      (((pickLoop p req as i qs).2.1.head?).map Prod.fst =
        ((firstIdx (fun v => !v.1 && v.2) (adapterVerdicts p req as qs)).map (fun j => i + j))) := by
  intro as
  induction as with
  | nil => intro i qs; simp [pickLoop, adapterVerdicts, firstIdx]
  | cons a rest ih =>
    intro i qs
    obtain ⟨ih1, ih2⟩ := ih (i + 1) (evalAdapter p req a qs).2.1
    by_cases hg : (evalAdapter p req a qs).1 = true
    · by_cases hd : a.isDiscrete = true
      · refine ⟨?_, ?_⟩
        · simp [pickLoop, adapterVerdicts, firstIdx, hg, hd]
        · cases hfi : firstIdx (fun v => !v.1 && v.2)
              (adapterVerdicts p req rest (evalAdapter p req a qs).2.1) with
          | none => simp [pickLoop, adapterVerdicts, firstIdx, hg, hd, hfi, ih2]
          | some j =>
            simp [pickLoop, adapterVerdicts, firstIdx, hg, hd, hfi, ih2]
            all_goals omega
      · have hda : a.isDiscrete = false := by
          cases hx : a.isDiscrete
          · rfl
          · exact absurd hx hd
        refine ⟨?_, ?_⟩
        · cases hfi : firstIdx (fun v => v.1 && v.2)
              (adapterVerdicts p req rest (evalAdapter p req a qs).2.1) with
          | none => simp [pickLoop, adapterVerdicts, firstIdx, hg, hda, hfi, ih1]
          | some j =>
            simp [pickLoop, adapterVerdicts, firstIdx, hg, hda, hfi, ih1]
            all_goals omega
        · simp [pickLoop, adapterVerdicts, firstIdx, hg, hda]
    · have hga : (evalAdapter p req a qs).1 = false := by
        cases hx : (evalAdapter p req a qs).1
        · rfl
        · exact absurd hx hg
      refine ⟨?_, ?_⟩
      · cases hfi : firstIdx (fun v => v.1 && v.2)
            (adapterVerdicts p req rest (evalAdapter p req a qs).2.1) with
        | none => simp [pickLoop, adapterVerdicts, firstIdx, hga, hfi, ih1]
        | some j =>
          simp [pickLoop, adapterVerdicts, firstIdx, hga, hfi, ih1]
          all_goals omega
      · cases hfi : firstIdx (fun v => !v.1 && v.2)
            (adapterVerdicts p req rest (evalAdapter p req a qs).2.1) with
        | none => simp [pickLoop, adapterVerdicts, firstIdx, hga, hfi, ih2]
        | some j =>
          simp [pickLoop, adapterVerdicts, firstIdx, hga, hfi, ih2]
          all_goals omega

/-- C4: `pickPhysicalDevice` selects the first enumerated adapter of discrete
device-type that passes all rejection predicates (evaluated with the queue
family member state threaded across adapters, as the source does); if no
discrete adapter passes it selects the first non-discrete adapter that
passes; if none passes, selection fails — and in the concrete two-adapter
scenario where the discrete adapter fails the `samplerAnisotropy`
required-feature predicate while the integrated adapter passes every
predicate, the integrated adapter (index 1) is selected. -/
theorem pickPhysicalDevice_preference :
    (∀ (p : DeviceParams) (reqDev : List String) (adapters : List Adapter) (qs : QueueState),
      ((pickPhysicalDevice p reqDev adapters qs).1).map Prod.fst =
        preferredChoice (adapterVerdicts p reqDev adapters qs)) ∧
    (pickPhysicalDevice {} requiredDeviceDefaults [adapterDiscreteBad, adapterIntegratedGood]
        initQueueState).1 = some (1, adapterIntegratedGood) := by
  constructor
  · intro p req as qs
    obtain ⟨h1, h2⟩ := pickLoop_heads p req as 0 qs
    cases hds : (pickLoop p req as 0 qs).1 with
    | nil =>
      cases hos : (pickLoop p req as 0 qs).2.1 with
      | nil =>
        rw [hds] at h1
        rw [hos] at h2
        have e1 : firstIdx (fun v => v.1 && v.2) (adapterVerdicts p req as qs) = none := by
          cases hfi : firstIdx (fun v => v.1 && v.2) (adapterVerdicts p req as qs)
          · rfl
          · rw [hfi] at h1; simp at h1
        have e2 : firstIdx (fun v => !v.1 && v.2) (adapterVerdicts p req as qs) = none := by
          cases hfi : firstIdx (fun v => !v.1 && v.2) (adapterVerdicts p req as qs)
          · rfl
          · rw [hfi] at h2; simp at h2
        simp [pickPhysicalDevice, hds, hos, preferredChoice, e1, e2]
      | cons o os =>
        rw [hds] at h1
        rw [hos] at h2
        have e1 : firstIdx (fun v => v.1 && v.2) (adapterVerdicts p req as qs) = none := by
          cases hfi : firstIdx (fun v => v.1 && v.2) (adapterVerdicts p req as qs)
          · rfl
          · rw [hfi] at h1; simp at h1
        have e2 : firstIdx (fun v => !v.1 && v.2) (adapterVerdicts p req as qs) = some o.1 := by
          cases hfi : firstIdx (fun v => !v.1 && v.2) (adapterVerdicts p req as qs)
          · rw [hfi] at h2; simp at h2
          · rw [hfi] at h2
            simp at h2
            simp [h2]
        simp [pickPhysicalDevice, hds, hos, preferredChoice, e1, e2]
    | cons d ds =>
      rw [hds] at h1
      have e1 : firstIdx (fun v => v.1 && v.2) (adapterVerdicts p req as qs) = some d.1 := by
        cases hfi : firstIdx (fun v => v.1 && v.2) (adapterVerdicts p req as qs)
        · rw [hfi] at h1; simp at h1
        · rw [hfi] at h1
          simp at h1
          simp [h1]
      simp [pickPhysicalDevice, hds, preferredChoice, e1]
  · decide

lemma evalAdapter_missing (p : DeviceParams) (req : List String) (a : Adapter)
    (qs : QueueState) (ext : String) (hreq : ext ∈ req)
    (hmiss : ext ∉ a.deviceExtensions) :
    (evalAdapter p req a qs).1 = false ∧
    Diagnostic.missingExtension ext ∈ (evalAdapter p req a qs).2.2 := by
  have hm : ext ∈ req.filter (fun e => decide (e ∉ a.deviceExtensions)) :=
    List.mem_filter.mpr ⟨hreq, by simpa using hmiss⟩
  have hne : (req.filter (fun e => decide (e ∉ a.deviceExtensions))).isEmpty = false := by
    cases hl : req.filter (fun e => decide (e ∉ a.deviceExtensions)) with
    | nil => rw [hl] at hm; cases hm
    | cons x xs => rfl
  constructor
  · simp only [evalAdapter]
    rw [hne]
    simp only [Bool.false_and]
  · have hmm : Diagnostic.missingExtension ext ∈
        (req.filter (fun e => decide (e ∉ a.deviceExtensions))).map
          Diagnostic.missingExtension :=
      List.mem_map_of_mem Diagnostic.missingExtension hm
    simp only [evalAdapter, List.mem_cons, List.mem_append]
    tauto

/-- C8: when a required device extension is absent from the single enumerated
adapter's supported device extensions (and instance negotiation succeeded),
`CreateDeviceAndSwapChain` fails, the accumulated adapter error stream names
the missing extension, and control never reaches `createDevice`. -/
theorem missing_device_extension_fails (p : DeviceParams) (availExt availLayers : List String)
    (a : Adapter) (ext : String)
    (hreq : ext ∈ p.requiredVulkanDeviceExtensions)
    (hmiss : ext ∉ a.deviceExtensions)
    (hinst : (instancePhase p availExt availLayers).ok = true) :
    (createDeviceAndSwapChain p availExt availLayers [a]).ok = false ∧
    (createDeviceAndSwapChain p availExt availLayers [a]).reachedCreateDevice = false ∧
    Diagnostic.missingExtension ext ∈
      (createDeviceAndSwapChain p availExt availLayers [a]).adapterErrors := by
  have hreq' : ext ∈ requiredDeviceDefaults ++ p.requiredVulkanDeviceExtensions :=
    List.mem_append_right _ hreq
  obtain ⟨hgood, hmem⟩ := evalAdapter_missing p
    (requiredDeviceDefaults ++ p.requiredVulkanDeviceExtensions) a initQueueState ext
    hreq' hmiss
  have hpick : (pickPhysicalDevice p
      (requiredDeviceDefaults ++ p.requiredVulkanDeviceExtensions) [a] initQueueState).1
      = none := by
    simp [pickPhysicalDevice, pickLoop, hgood]
  have herr : (pickPhysicalDevice p
      (requiredDeviceDefaults ++ p.requiredVulkanDeviceExtensions) [a] initQueueState).2.2
      = (evalAdapter p (requiredDeviceDefaults ++ p.requiredVulkanDeviceExtensions) a
          initQueueState).2.2 := by
    simp [pickPhysicalDevice, pickLoop, hgood]
  refine ⟨?_, ?_, ?_⟩
  · simp [createDeviceAndSwapChain, hinst, hpick]
  · simp [createDeviceAndSwapChain, hinst, hpick]
  · simp only [createDeviceAndSwapChain, hinst, if_true]
    simp only [hpick]
    rw [herr]
    exact hmem

/-- Witness for C8: a configuration requiring device extension `"X"` against
a single otherwise-capable adapter that lacks it. -/
theorem missing_device_extension_fails_witness :
    (createDeviceAndSwapChain paramsMissingX ["VK_KHR_get_physical_device_properties2"] []
      [adapterIntegratedGood]).ok = false ∧
    (createDeviceAndSwapChain paramsMissingX ["VK_KHR_get_physical_device_properties2"] []
      [adapterIntegratedGood]).reachedCreateDevice = false ∧
    Diagnostic.missingExtension "X" ∈
      (createDeviceAndSwapChain paramsMissingX ["VK_KHR_get_physical_device_properties2"] []
        [adapterIntegratedGood]).adapterErrors :=
  missing_device_extension_fails paramsMissingX ["VK_KHR_get_physical_device_properties2"] []
    adapterIntegratedGood "X" (by decide) (by decide) (by decide)

end DMVK
